import Mathlib

/-!
# Verification of the push-notification relay service

Shallow embedding of the Go HTTP relay (`main.go`): a service that accepts
POST requests and forwards the request body as a push notification via the
Pushover client, with a logging middleware that attaches a correlation
identifier, and a startup routine that validates configuration and selects
a listener.

The embedding models:
* the environment as a partial map from variable names to strings
  (`os.Getenv` returns `""` for unset variables, `os.LookupEnv` reports
  presence);
* the Pushover data types (`Message`, `Recipient`, `Response`) and the
  `PushoverClient.SendMessage` operation as a function returning a pair of
  an optional response pointer and an optional error (either side of the
  Go pair `(*pushover.Response, error)` may be nil);
* the `http.ResponseWriter` as headers (a map), an optional committed
  status code, and the accumulated body; `http.Error` is modelled after
  the Go standard library: it deletes `Content-Length`, sets
  `Content-Type` and `X-Content-Type-Options`, writes the status code and
  then the message followed by a newline (`fmt.Fprintln`); a plain `Write`
  commits status 200 when no status was written yet;
* each handler invocation as a pure function producing the final writer
  state, the emitted structured-log events, the list of
  `SendMessage` invocations, and whether the handler panicked on a nil
  pointer dereference (reading `response.Status` when `SendMessage`
  returned a nil response together with a nil error);
* the middleware's two `time.Now()` samples as explicit nanosecond
  timestamps supplied from outside; Go's monotonic clock guarantees the
  second sample is not smaller than the first; `Duration.Milliseconds`
  divides by 10^6 truncating toward zero (`Int.tdiv`);
* deferred `r.Body.Close()` as always succeeding (its failure only logs,
  which no claim observes), and the final `w.Write` as always succeeding
  (its failure only logs and cannot change the committed status).
-/

namespace PushRelay

/-- Process environment: `some v` when the variable is set (to `v`),
`none` when unset.  `os.LookupEnv` is modelled by the map itself. -/
def EnvMap : Type := String → Option String

/-- Models `os.Getenv`: the empty string when the variable is unset. -/
def getEnvStr (env : EnvMap) (k : String) : String :=
  (env k).getD ""

/-- Models `pushover.Message`, as built by `pushover.NewMessage`: only the text
content is relevant to this program. -/
structure Message where
  message : String
deriving DecidableEq, Repr

/-- Models `pushover.NewMessage`. -/
def newMessage (text : String) : Message :=
  { message := text }

/-- Models `pushover.Recipient`, as built by `pushover.NewRecipient` from a user
key token. -/
structure Recipient where
  token : String
deriving DecidableEq, Repr

/-- Models `pushover.NewRecipient`. -/
def newRecipient (key : String) : Recipient :=
  { token := key }

/-- Models `pushover.Response`: the fields the handler reads (`Status`, `ID`). -/
structure Response where
  status : Int
  id : String
deriving DecidableEq, Repr

/-- Behaviour of a `PushoverClient.SendMessage` implementation: Go returns
`(*pushover.Response, error)`; each component is a pointer/interface that
may be nil, modelled by `Option`. -/
def ClientBehavior : Type :=
  Message → Recipient → Option Response × Option String

/-- The contract every reasonable `PushoverClient` honours (and the
library client does): a nil error comes with a non-nil response. -/
def ClientContract (net : ClientBehavior) : Prop :=
  ∀ m (rcpt : Recipient), (net m rcpt).2 = none → (net m rcpt).1 ≠ none

/-- Response headers: a map from header name to its value, `none` when the
header is absent. -/
def Headers : Type := String → Option String

/-- No headers set. -/
def Headers.empty : Headers := fun _ => none

/-- Models `http.ResponseWriter` state: headers, the committed status code
(`none` until `WriteHeader` runs), and the body written so far. -/
structure ResponseWriter where
  headers : Headers
  status : Option Nat
  body : String

/-- A fresh writer, as handed to the middleware for each request. -/
def ResponseWriter.init : ResponseWriter :=
  { headers := Headers.empty, status := none, body := "" }

/-- Models `w.Header().Set(k, v)`. -/
def ResponseWriter.setHeader (w : ResponseWriter) (k v : String) : ResponseWriter :=
  { w with headers := fun k' => if k' = k then some v else w.headers k' }

/-- Models `w.Header().Del(k)`. -/
def ResponseWriter.delHeader (w : ResponseWriter) (k : String) : ResponseWriter :=
  { w with headers := fun k' => if k' = k then none else w.headers k' }

/-- Models `w.WriteHeader(code)`: commits the status; a second call is a no-op
(net/http logs "superfluous WriteHeader" and ignores it). -/
def ResponseWriter.writeHeader (w : ResponseWriter) (code : Nat) : ResponseWriter :=
  match w.status with
  | some _ => w
  | none => { w with status := some code }

/-- Models `w.Write(bytes)`: commits status 200 if none was written yet, then
appends to the body. -/
def ResponseWriter.write (w : ResponseWriter) (s : String) : ResponseWriter :=
  let w' := w.writeHeader 200
  { w' with body := w'.body ++ s }

/-- Models `http.Error(w, msg, code)` from the Go standard library: deletes
`Content-Length`, sets `Content-Type` and `X-Content-Type-Options`,
writes the header and then `msg` followed by a newline
(`fmt.Fprintln(w, error)`). -/
def httpError (w : ResponseWriter) (msg : String) (code : Nat) : ResponseWriter :=
  ((((w.delHeader "Content-Length").setHeader
      "Content-Type" "text/plain; charset=utf-8").setHeader
      "X-Content-Type-Options" "nosniff").writeHeader code).write (msg ++ "\n")

/-- An inbound HTTP request.  `bodyRead` is the outcome of
`io.ReadAll(r.Body)`: either the full body as text (`string(bodyBytes)` is
byte-for-byte) or the I/O error message. -/
structure Request where
  method : String
  path : String
  remoteAddr : String
  userAgent : String
  bodyRead : Except String String
deriving Repr

/-- The structured-log events the program can emit, in emission order. -/
inductive LogEvent where
  | methodNotAllowed (method : String)
  | readBodyFailed (err : String)
  | receivedPayload (contentLength : Nat) (payload : String)
  | sendFailed (err : String)
  | notificationSent (status : Int) (responseId : String)
  | requestStarted (method path remoteAddr userAgent : String)
  | requestCompleted (method path : String) (durationMs : Int)
deriving DecidableEq, Repr

/-- Everything observable about one handler invocation: the final writer
state, the log events emitted, the `SendMessage` calls made (message and
recipient of each), and whether a nil-pointer dereference panic
occurred. -/
structure HandlerOutcome where
  w : ResponseWriter
  logs : List LogEvent
  sends : List (Message × Recipient)
  crashed : Bool

/-- An `http.Handler` (after the logger has been placed in the context,
which the outcome's log list models). -/
def Handler : Type := Request → ResponseWriter → HandlerOutcome

/-- Models `createMainHandler(pushoverClient, pushoverUserKey)`: method gate,
`X-Version` header from the `VERSION` environment variable, body read,
payload log, one `SendMessage`, and uniform error mapping.  On the success
path the handler reads `response.Status` and `response.ID` with no nil
check: a `(nil, nil)` return from the client panics there (modelled by
`crashed := true`, which aborts the invocation with nothing written). -/
def createMainHandler (env : EnvMap) (sendMessage : ClientBehavior)
    (pushoverUserKey : String) : Handler := fun r w =>
  if r.method ≠ "POST" then
    { w := httpError w "Method not allowed" 405,
      logs := [LogEvent.methodNotAllowed r.method],
      sends := [], crashed := false }
  else
    let version := getEnvStr env "VERSION"
    let w := w.setHeader "X-Version" version
    let recipient := newRecipient pushoverUserKey
    match r.bodyRead with
    | Except.error e =>
      { w := httpError w "Error reading request body" 400,
        logs := [LogEvent.readBodyFailed e],
        sends := [], crashed := false }
    | Except.ok bodyText =>
      let payloadLog := LogEvent.receivedPayload bodyText.length bodyText
      let message := newMessage bodyText
      match sendMessage message recipient with
      | (_, some e) =>
        { w := httpError w "Error sending notification" 500,
          logs := [payloadLog, LogEvent.sendFailed e],
          sends := [(message, recipient)], crashed := false }
      | (some resp, none) =>
        { w := w.write "Notification sent.\n",
          logs := [payloadLog, LogEvent.notificationSent resp.status resp.id],
          sends := [(message, recipient)], crashed := false }
      | (none, none) =>
        { w := w,
          logs := [payloadLog],
          sends := [(message, recipient)], crashed := true }

/-- The part of the request context relevant to correlation ids: the AWS
Lambda context (when running under Lambda, carrying `AwsRequestID`) and
the API-Gateway request context injected by apex/gateway (carrying
`RequestID`); either may be absent. -/
structure Ctx where
  lambdaAwsRequestID : Option String
  gatewayRequestID : Option String
deriving DecidableEq, Repr

/-- Models `getRequestID(ctx)`: the Lambda invocation id when present and
non-empty, else the gateway request id when that context is present, else
the empty string. -/
def getRequestID (ctx : Ctx) : String :=
  match ctx.lambdaAwsRequestID with
  | some rid =>
    if rid ≠ "" then rid
    else
      match ctx.gatewayRequestID with
      | some grid => grid
      | none => ""
  | none =>
    match ctx.gatewayRequestID with
    | some grid => grid
    | none => ""

/-- Models `loggingMiddleware(next)`: samples the clock (`startNs`), computes the
correlation id, sets the `X-Request-ID` header, logs "request started",
delegates, then samples the clock again (`endNs`) and logs "request
completed" with the duration in whole milliseconds
(`time.Duration.Milliseconds` truncates toward zero).  A panic in the
inner handler propagates, so the completed event is not emitted then. -/
def loggingMiddleware (next : Handler) (ctx : Ctx) (startNs endNs : Int) : Handler :=
  fun r w =>
    let requestID := getRequestID ctx
    let w := w.setHeader "X-Request-ID" requestID
    let startEvent := LogEvent.requestStarted r.method r.path r.remoteAddr r.userAgent
    let inner := next r w
    if inner.crashed then
      { inner with logs := startEvent :: inner.logs }
    else
      { inner with
          logs := startEvent :: inner.logs ++
            [LogEvent.requestCompleted r.method r.path
              (Int.tdiv (endNs - startNs) 1000000)] }

/-- Which listener `main` starts (exactly one of the two). -/
inductive ListenerKind where
  | lambdaGateway
  | httpServer (port : String)

/-- The state `main` reaches when startup validation passes: the single
registered handler chain (middleware around the main handler, with the
clock samples and per-request context still to be supplied) and the single
listener it starts. -/
structure ServerSetup where
  handler : Ctx → Int → Int → Handler
  listener : ListenerKind

/-- The fatal diagnostic `log.Fatal` prints when a required configuration
value is missing. -/
def fatalConfigMsg : String :=
  "PUSHOVER_TOKEN and PUSHOVER_USER_KEY environment variables must be set"

/-- Models `main()` up to the point the listener blocks: reads the two required
configuration values, terminates fatally (`Except.error`) when either is
empty, otherwise wires the middleware around `createMainHandler` on the
catch-all route and starts exactly one listener — the gateway adapter
under Lambda, else an HTTP server on `PORT` (default `"8080"`).
`net` stands for the external delivery behaviour behind
`NewDefaultPushoverClient(pushoverToken).SendMessage`. -/
def mainStartup (env : EnvMap) (net : ClientBehavior) : Except String ServerSetup :=
  let pushoverToken := getEnvStr env "PUSHOVER_TOKEN"
  let pushoverUserKey := getEnvStr env "PUSHOVER_USER_KEY"
  if pushoverToken = "" ∨ pushoverUserKey = "" then
    Except.error fatalConfigMsg
  else
    let mainHandler := createMainHandler env net pushoverUserKey
    let chain := loggingMiddleware mainHandler
    if (env "AWS_LAMBDA_FUNCTION_NAME").isSome then
      Except.ok { handler := chain, listener := ListenerKind.lambdaGateway }
    else
      let port := if getEnvStr env "PORT" = "" then "8080" else getEnvStr env "PORT"
      Except.ok { handler := chain, listener := ListenerKind.httpServer port }

/-! ### Concrete fixtures

Sample environments, client behaviours, requests and contexts used to
instantiate the theorems below at concrete inputs. -/

/-- An environment with only `VERSION` set. -/
def envSample : EnvMap := fun k => if k = "VERSION" then some "v1.2" else none

/-- An environment with both required configuration values set (and no
Lambda marker, no `PORT`). -/
def envFull : EnvMap := fun k =>
  if k = "PUSHOVER_TOKEN" then some "tok"
  else if k = "PUSHOVER_USER_KEY" then some "ukey"
  else none

/-- An environment missing `PUSHOVER_USER_KEY`. -/
def envMissing : EnvMap := fun k =>
  if k = "PUSHOVER_TOKEN" then some "tok" else none

/-- A client that always delivers. -/
def netOk : ClientBehavior := fun _ _ => (some { status := 1, id := "rid-9" }, none)

/-- A client that always fails. -/
def netErr : ClientBehavior := fun _ _ => (none, some "network down")

/-- A (contract-violating) client returning a nil response with a nil
error. -/
def netNil : ClientBehavior := fun _ _ => (none, none)

/-- A POST request with a readable body. -/
def samplePost : Request :=
  { method := "POST", path := "/", remoteAddr := "203.0.113.1",
    userAgent := "curl", bodyRead := Except.ok "hello" }

/-- A GET request. -/
def sampleGet : Request :=
  { method := "GET", path := "/", remoteAddr := "203.0.113.1",
    userAgent := "curl", bodyRead := Except.ok "" }

/-- A POST request whose body read fails. -/
def sampleBadBody : Request :=
  { method := "POST", path := "/", remoteAddr := "203.0.113.1",
    userAgent := "curl", bodyRead := Except.error "unexpected EOF" }

/-- A context with neither correlation-id source available. -/
def ctxNone : Ctx := { lambdaAwsRequestID := none, gatewayRequestID := none }

/-- A context with both a Lambda invocation id and a gateway request id. -/
def ctxLam : Ctx := { lambdaAwsRequestID := some "lam-1", gatewayRequestID := some "gw-1" }

/-- A context whose Lambda invocation id is empty but whose gateway
request id is available. -/
def ctxEmptyLam : Ctx := { lambdaAwsRequestID := some "", gatewayRequestID := some "gw-1" }

/-! ### Helper lemmas -/

/-- Under the client contract, no branch of the main handler panics. -/
theorem createMainHandler_not_crashed (env : EnvMap) (net : ClientBehavior)
    (userKey : String) (hnet : ClientContract net) (r : Request)
    (w : ResponseWriter) :
    (createMainHandler env net userKey r w).crashed = false := by
  unfold createMainHandler
  by_cases hm : r.method = "POST"
  · simp only [hm, ne_eq, not_true_eq_false, if_false, ite_false]
    cases hb : r.bodyRead with
    | error e => simp
    | ok body =>
      rcases hnet' : net (newMessage body) (newRecipient userKey) with ⟨resp, err⟩
      cases err with
      | some e => simp [hnet']
      | none =>
        cases resp with
        | some v => simp [hnet']
        | none =>
          have h1 := hnet (newMessage body) (newRecipient userKey) (by rw [hnet'])
          rw [hnet'] at h1
          exact absurd rfl h1
  · simp [hm]

/-! ### Claims -/

/-- C1: for every POST request whose body is read successfully, the
handler invokes the client's send operation exactly once, with a message
whose content equals the request body verbatim and exactly one recipient
built from the configured user key — whatever the client then returns
(success, error, or even a nil/nil pair), never zero or multiple sends. -/
theorem c1_exactly_one_send (env : EnvMap) (net : ClientBehavior)
    (userKey : String) (r : Request) (w : ResponseWriter) (body : String)
    (hm : r.method = "POST") (hb : r.bodyRead = Except.ok body) :
    (createMainHandler env net userKey r w).sends =
      [(newMessage body, newRecipient userKey)] := by
  unfold createMainHandler
  simp only [hm, hb, ne_eq, not_true_eq_false, if_false, ite_false]
  rcases hnet : net (newMessage body) (newRecipient userKey) with ⟨resp, err⟩
  cases err with
  | some e => simp [hnet]
  | none => cases resp <;> simp [hnet]

/-- Witness for C1 at a concrete POST request with body `"hello"`. -/
theorem c1_witness :
    (createMainHandler envSample netOk "ukey" samplePost ResponseWriter.init).sends =
      [(newMessage "hello", newRecipient "ukey")] :=
  c1_exactly_one_send envSample netOk "ukey" samplePost ResponseWriter.init "hello"
    (by decide) rfl

/-- C2 counterexample: on a delivery failure the handler passes
`"Error sending notification"` to `http.Error`, which appends a newline
(`fmt.Fprintln`), so the response body is not equal to
`"Error sending notification"` as the claim states. -/
theorem c2_counterexample :
    (createMainHandler envSample netErr "ukey" samplePost ResponseWriter.init).w.status
        = some 500 ∧
    (createMainHandler envSample netErr "ukey" samplePost ResponseWriter.init).w.body
        = "Error sending notification\n" ∧
    (createMainHandler envSample netErr "ukey" samplePost ResponseWriter.init).w.body
        ≠ "Error sending notification" := by
  refine ⟨rfl, rfl, ?_⟩
  decide

/-- C2 amended: on client success the response is status 200 with body
exactly `"Notification sent.\n"`; on client error it is status 500 with
body exactly `"Error sending notification\n"` (the message handed to
`http.Error` plus the newline that helper appends), which is not the
confirmation text. -/
theorem c2_success_and_error_responses (env : EnvMap) (net : ClientBehavior)
    (userKey : String) (r : Request) (w : ResponseWriter) (body : String)
    (hm : r.method = "POST") (hb : r.bodyRead = Except.ok body)
    (hst : w.status = none) (hbd : w.body = "") :
    (∀ resp, net (newMessage body) (newRecipient userKey) = (some resp, none) →
      (createMainHandler env net userKey r w).w.status = some 200 ∧
      (createMainHandler env net userKey r w).w.body = "Notification sent.\n") ∧
    (∀ respOpt e, net (newMessage body) (newRecipient userKey) = (respOpt, some e) →
      (createMainHandler env net userKey r w).w.status = some 500 ∧
      (createMainHandler env net userKey r w).w.body = "Error sending notification\n" ∧
      (createMainHandler env net userKey r w).w.body ≠ "Notification sent.\n") := by
  unfold createMainHandler
  simp only [hm, hb, ne_eq, not_true_eq_false, if_false, ite_false]
  constructor
  · intro resp hnet
    simp [hnet, ResponseWriter.write, ResponseWriter.writeHeader,
      ResponseWriter.setHeader, hst, hbd]
  · intro respOpt e hnet
    simp only [hnet]
    refine ⟨?_, ?_, ?_⟩ <;>
      simp [httpError, ResponseWriter.write, ResponseWriter.writeHeader,
        ResponseWriter.setHeader, ResponseWriter.delHeader, hst, hbd]

/-- Witness for C2 amended at concrete success and failure clients. -/
theorem c2_witness :
    ((createMainHandler envSample netOk "ukey" samplePost ResponseWriter.init).w.status
        = some 200 ∧
      (createMainHandler envSample netOk "ukey" samplePost ResponseWriter.init).w.body
        = "Notification sent.\n") ∧
    ((createMainHandler envSample netErr "ukey" samplePost ResponseWriter.init).w.status
        = some 500 ∧
      (createMainHandler envSample netErr "ukey" samplePost ResponseWriter.init).w.body
        = "Error sending notification\n" ∧
      (createMainHandler envSample netErr "ukey" samplePost ResponseWriter.init).w.body
        ≠ "Notification sent.\n") :=
  ⟨(c2_success_and_error_responses envSample netOk "ukey" samplePost
      ResponseWriter.init "hello" (by decide) rfl rfl rfl).1
      { status := 1, id := "rid-9" } rfl,
    (c2_success_and_error_responses envSample netErr "ukey" samplePost
      ResponseWriter.init "hello" (by decide) rfl rfl rfl).2
      none "network down" rfl⟩

/-- C3 counterexample: a GET request is answered with status 405, but the
body is `"Method not allowed\n"` — `http.Error` appends a newline — and so
is not equal to `"Method not allowed"` as the claim states. -/
theorem c3_counterexample :
    (createMainHandler envSample netOk "ukey" sampleGet ResponseWriter.init).w.status
        = some 405 ∧
    (createMainHandler envSample netOk "ukey" sampleGet ResponseWriter.init).w.body
        = "Method not allowed\n" ∧
    (createMainHandler envSample netOk "ukey" sampleGet ResponseWriter.init).w.body
        ≠ "Method not allowed" := by
  refine ⟨rfl, rfl, ?_⟩
  decide

/-- C3 amended: every non-POST request is answered with status 405 and
body exactly `"Method not allowed\n"` (the message handed to `http.Error`
plus its newline), the rejected method is logged, and the client's send
operation is invoked zero times. -/
theorem c3_non_post_rejected (env : EnvMap) (net : ClientBehavior)
    (userKey : String) (r : Request) (w : ResponseWriter)
    (hm : r.method ≠ "POST") (hst : w.status = none) (hbd : w.body = "") :
    (createMainHandler env net userKey r w).w.status = some 405 ∧
    (createMainHandler env net userKey r w).w.body = "Method not allowed\n" ∧
    (createMainHandler env net userKey r w).logs =
      [LogEvent.methodNotAllowed r.method] ∧
    (createMainHandler env net userKey r w).sends = [] := by
  unfold createMainHandler
  simp [hm, httpError, ResponseWriter.write, ResponseWriter.writeHeader,
    ResponseWriter.setHeader, ResponseWriter.delHeader, hst, hbd]

/-- Witness for C3 amended at a concrete GET request. -/
theorem c3_witness :
    (createMainHandler envSample netOk "ukey" sampleGet ResponseWriter.init).w.status
        = some 405 ∧
    (createMainHandler envSample netOk "ukey" sampleGet ResponseWriter.init).w.body
        = "Method not allowed\n" ∧
    (createMainHandler envSample netOk "ukey" sampleGet ResponseWriter.init).logs
        = [LogEvent.methodNotAllowed "GET"] ∧
    (createMainHandler envSample netOk "ukey" sampleGet ResponseWriter.init).sends
        = [] :=
  c3_non_post_rejected envSample netOk "ukey" sampleGet ResponseWriter.init
    (by decide) rfl rfl

/-- C5 counterexample: when the body read fails the handler is answered
with status 400, but the body is `"Error reading request body\n"` —
`http.Error` appends a newline — and so is not equal to
`"Error reading request body"` as the claim states. -/
theorem c5_counterexample :
    (createMainHandler envSample netOk "ukey" sampleBadBody ResponseWriter.init).w.status
        = some 400 ∧
    (createMainHandler envSample netOk "ukey" sampleBadBody ResponseWriter.init).w.body
        = "Error reading request body\n" ∧
    (createMainHandler envSample netOk "ukey" sampleBadBody ResponseWriter.init).w.body
        ≠ "Error reading request body" := by
  refine ⟨rfl, rfl, ?_⟩
  decide

/-- C5 amended: every POST request whose body read fails with an I/O
error is answered with status 400 and body exactly
`"Error reading request body\n"` (the message handed to `http.Error` plus
its newline), the error is logged, and the client's send operation is
invoked zero times. -/
theorem c5_body_read_failure (env : EnvMap) (net : ClientBehavior)
    (userKey : String) (r : Request) (w : ResponseWriter) (e : String)
    (hm : r.method = "POST") (hb : r.bodyRead = Except.error e)
    (hst : w.status = none) (hbd : w.body = "") :
    (createMainHandler env net userKey r w).w.status = some 400 ∧
    (createMainHandler env net userKey r w).w.body = "Error reading request body\n" ∧
    (createMainHandler env net userKey r w).logs = [LogEvent.readBodyFailed e] ∧
    (createMainHandler env net userKey r w).sends = [] := by
  unfold createMainHandler
  simp [hm, hb, httpError, ResponseWriter.write, ResponseWriter.writeHeader,
    ResponseWriter.setHeader, ResponseWriter.delHeader, hst, hbd]

/-- Witness for C5 amended at a concrete failing body read. -/
theorem c5_witness :
    (createMainHandler envSample netOk "ukey" sampleBadBody ResponseWriter.init).w.status
        = some 400 ∧
    (createMainHandler envSample netOk "ukey" sampleBadBody ResponseWriter.init).w.body
        = "Error reading request body\n" ∧
    (createMainHandler envSample netOk "ukey" sampleBadBody ResponseWriter.init).logs
        = [LogEvent.readBodyFailed "unexpected EOF"] ∧
    (createMainHandler envSample netOk "ukey" sampleBadBody ResponseWriter.init).sends
        = [] :=
  c5_body_read_failure envSample netOk "ukey" sampleBadBody ResponseWriter.init
    "unexpected EOF" (by decide) rfl rfl rfl

/-- The middleware never alters the writer produced by the inner handler:
its final writer is the inner handler's writer (on the writer that already
carries the `X-Request-ID` header). -/
theorem loggingMiddleware_w (next : Handler) (ctx : Ctx) (startNs endNs : Int)
    (r : Request) (w : ResponseWriter) :
    (loggingMiddleware next ctx startNs endNs r w).w =
      (next r (w.setHeader "X-Request-ID" (getRequestID ctx))).w := by
  unfold loggingMiddleware
  by_cases hc : (next r (w.setHeader "X-Request-ID" (getRequestID ctx))).crashed <;>
    simp [hc]

/-- The middleware performs no sends of its own. -/
theorem loggingMiddleware_sends (next : Handler) (ctx : Ctx) (startNs endNs : Int)
    (r : Request) (w : ResponseWriter) :
    (loggingMiddleware next ctx startNs endNs r w).sends =
      (next r (w.setHeader "X-Request-ID" (getRequestID ctx))).sends := by
  unfold loggingMiddleware
  by_cases hc : (next r (w.setHeader "X-Request-ID" (getRequestID ctx))).crashed <;>
    simp [hc]

/-- On every POST request (whatever the body read and the client return),
the handler's response carries `X-Version` equal to the `VERSION`
environment value read during handling. -/
theorem createMainHandler_version_header (env : EnvMap) (net : ClientBehavior)
    (userKey : String) (r : Request) (w : ResponseWriter)
    (hm : r.method = "POST") :
    (createMainHandler env net userKey r w).w.headers "X-Version" =
      some (getEnvStr env "VERSION") := by
  rcases w with ⟨hdrs, st, bd⟩
  unfold createMainHandler
  simp only [hm, ne_eq, not_true_eq_false, if_false, ite_false]
  cases hb : r.bodyRead with
  | error e =>
    cases st <;>
      simp [httpError, ResponseWriter.write, ResponseWriter.writeHeader,
        ResponseWriter.setHeader, ResponseWriter.delHeader]
  | ok body =>
    rcases hnet : net (newMessage body) (newRecipient userKey) with ⟨resp, err⟩
    cases err with
    | some e =>
      cases st <;>
        simp [hnet, httpError, ResponseWriter.write, ResponseWriter.writeHeader,
          ResponseWriter.setHeader, ResponseWriter.delHeader]
    | none =>
      cases resp <;> cases st <;>
        simp [hnet, ResponseWriter.write, ResponseWriter.writeHeader,
          ResponseWriter.setHeader]

/-- On every non-POST request the handler leaves the `X-Version` header
exactly as it found it (`http.Error` touches only `Content-Length`,
`Content-Type` and `X-Content-Type-Options`). -/
theorem createMainHandler_non_post_version_header (env : EnvMap)
    (net : ClientBehavior) (userKey : String) (r : Request)
    (w : ResponseWriter) (hm : r.method ≠ "POST") :
    (createMainHandler env net userKey r w).w.headers "X-Version" =
      w.headers "X-Version" := by
  rcases w with ⟨hdrs, st, bd⟩
  unfold createMainHandler
  cases st <;>
    simp [hm, httpError, ResponseWriter.write, ResponseWriter.writeHeader,
      ResponseWriter.setHeader, ResponseWriter.delHeader]

/-- C4 counterexample: a GET request through the full middleware-wrapped
chain, from a fresh writer, is answered (with 405) without any
`X-Version` header — the handler only sets that header after the method
check has passed — refuting "the response carries an X-Version header"
for every request. -/
theorem c4_counterexample :
    (loggingMiddleware (createMainHandler envSample netOk "ukey") ctxNone 0 0
        sampleGet ResponseWriter.init).w.status = some 405 ∧
    (loggingMiddleware (createMainHandler envSample netOk "ukey") ctxNone 0 0
        sampleGet ResponseWriter.init).w.headers "X-Version" = none := by
  exact ⟨rfl, rfl⟩

/-- C4 amended: the response to every POST request — including the 400
and 500 error responses — carries `X-Version` equal to the `VERSION`
environment value, which the handler reads from the environment during
request handling (not once at process start); responses to non-POST
requests (the 405 path) carry no `X-Version` header. -/
theorem c4_version_header (env : EnvMap) (net : ClientBehavior)
    (userKey : String) (ctx : Ctx) (startNs endNs : Int) (r : Request)
    (w : ResponseWriter) (hw : w.headers "X-Version" = none) :
    (r.method = "POST" →
      (loggingMiddleware (createMainHandler env net userKey) ctx startNs endNs
          r w).w.headers "X-Version" = some (getEnvStr env "VERSION")) ∧
    (r.method ≠ "POST" →
      (loggingMiddleware (createMainHandler env net userKey) ctx startNs endNs
          r w).w.headers "X-Version" = none) := by
  rw [loggingMiddleware_w]
  constructor
  · intro hm
    exact createMainHandler_version_header env net userKey r _ hm
  · intro hm
    rw [createMainHandler_non_post_version_header env net userKey r _ hm]
    simp [ResponseWriter.setHeader, hw]

/-- Witness for C4 amended: a concrete POST request carries the
configured version, a concrete GET request carries no `X-Version`. -/
theorem c4_witness :
    (loggingMiddleware (createMainHandler envSample netOk "ukey") ctxNone 0 0
        samplePost ResponseWriter.init).w.headers "X-Version"
      = some (getEnvStr envSample "VERSION") ∧
    (loggingMiddleware (createMainHandler envSample netOk "ukey") ctxNone 0 0
        sampleGet ResponseWriter.init).w.headers "X-Version" = none :=
  ⟨(c4_version_header envSample netOk "ukey" ctxNone 0 0 samplePost
      ResponseWriter.init rfl).1 (by decide),
    (c4_version_header envSample netOk "ukey" ctxNone 0 0 sampleGet
      ResponseWriter.init rfl).2 (by decide)⟩

/-- The main handler never touches the `X-Request-ID` header on any of
its paths. -/
theorem createMainHandler_preserves_request_id (env : EnvMap)
    (net : ClientBehavior) (userKey : String) (r : Request)
    (w : ResponseWriter) :
    (createMainHandler env net userKey r w).w.headers "X-Request-ID" =
      w.headers "X-Request-ID" := by
  rcases w with ⟨hdrs, st, bd⟩
  unfold createMainHandler
  by_cases hm : r.method = "POST"
  · simp only [hm, ne_eq, not_true_eq_false, if_false, ite_false]
    cases hb : r.bodyRead with
    | error e =>
      cases st <;>
        simp [httpError, ResponseWriter.write, ResponseWriter.writeHeader,
          ResponseWriter.setHeader, ResponseWriter.delHeader]
    | ok body =>
      rcases hnet : net (newMessage body) (newRecipient userKey) with ⟨resp, err⟩
      cases err with
      | some e =>
        cases st <;>
          simp [hnet, httpError, ResponseWriter.write, ResponseWriter.writeHeader,
            ResponseWriter.setHeader, ResponseWriter.delHeader]
      | none =>
        cases resp <;> cases st <;>
          simp [hnet, ResponseWriter.write, ResponseWriter.writeHeader,
            ResponseWriter.setHeader]
  · cases st <;>
      simp [hm, httpError, ResponseWriter.write, ResponseWriter.writeHeader,
        ResponseWriter.setHeader, ResponseWriter.delHeader]

/-- C6: the correlation identifier follows the priority order — the
Lambda invocation id when present and non-empty, else the gateway request
id when that context is present, else the empty string — the middleware
sets it as the `X-Request-ID` response header (surviving every handler
path), and an empty identifier still flows through without failing the
request (the header is then present with an empty value). -/
theorem c6_request_id_priority (ctx : Ctx) :
    (∀ rid, ctx.lambdaAwsRequestID = some rid → rid ≠ "" →
      getRequestID ctx = rid) ∧
    ((ctx.lambdaAwsRequestID = none ∨ ctx.lambdaAwsRequestID = some "") →
      ∀ grid, ctx.gatewayRequestID = some grid → getRequestID ctx = grid) ∧
    ((ctx.lambdaAwsRequestID = none ∨ ctx.lambdaAwsRequestID = some "") →
      ctx.gatewayRequestID = none → getRequestID ctx = "") ∧
    (∀ env net userKey startNs endNs r w,
      (loggingMiddleware (createMainHandler env net userKey) ctx startNs endNs
          r w).w.headers "X-Request-ID" = some (getRequestID ctx)) := by
  refine ⟨?_, ?_, ?_, ?_⟩
  · intro rid hl hne
    unfold getRequestID
    rw [hl]
    simp [hne]
  · rintro (hl | hl) grid hg <;> unfold getRequestID <;> simp [hl, hg]
  · rintro (hl | hl) hg <;> unfold getRequestID <;> simp [hl, hg]
  · intro env net userKey startNs endNs r w
    rw [loggingMiddleware_w, createMainHandler_preserves_request_id]
    simp [ResponseWriter.setHeader]

/-- Witness for C6 at concrete contexts exercising all three priority
levels and the header on a concrete request. -/
theorem c6_witness :
    getRequestID ctxLam = "lam-1" ∧
    getRequestID ctxEmptyLam = "gw-1" ∧
    getRequestID ctxNone = "" ∧
    (loggingMiddleware (createMainHandler envSample netOk "ukey") ctxNone 0 0
        sampleGet ResponseWriter.init).w.headers "X-Request-ID" = some "" :=
  ⟨(c6_request_id_priority ctxLam).1 "lam-1" rfl (by decide),
    (c6_request_id_priority ctxEmptyLam).2.1 (Or.inr rfl) "gw-1" rfl,
    (c6_request_id_priority ctxNone).2.2.1 (Or.inl rfl) rfl,
    (c6_request_id_priority ctxNone).2.2.2 envSample netOk "ukey" 0 0
      sampleGet ResponseWriter.init⟩

/-- C9: the middleware sets `X-Request-ID` before delegating, and no
handler path removes or overwrites it, so every response — 405, 400, 500
and 200 alike — carries `X-Request-ID` equal to the computed correlation
identifier (possibly the empty string). -/
theorem c9_request_id_on_every_response (env : EnvMap) (net : ClientBehavior)
    (userKey : String) (ctx : Ctx) (startNs endNs : Int) (r : Request)
    (w : ResponseWriter) :
    (loggingMiddleware (createMainHandler env net userKey) ctx startNs endNs
        r w).w.headers "X-Request-ID" = some (getRequestID ctx) := by
  rw [loggingMiddleware_w, createMainHandler_preserves_request_id]
  simp [ResponseWriter.setHeader]

/-- C8: for every request — any method, any terminal error path — the
middleware logs "request started" before delegating and "request
completed" after the handler returns, with the handler's own log events
strictly between the two; the completed event's duration is the elapsed
nanoseconds (sampled before the handler ran, hence before the body read,
and after it returned, hence after the response write) divided by 10^6
truncating toward zero, and is ≥ 0 since the monotonic clock's second
sample is not below the first.  The client-contract hypothesis rules out
a nil-pointer panic, which would abort the middleware before its
completed log. -/
theorem c8_started_and_completed (env : EnvMap) (net : ClientBehavior)
    (userKey : String) (ctx : Ctx) (startNs endNs : Int) (r : Request)
    (w : ResponseWriter) (hnet : ClientContract net) (ht : startNs ≤ endNs) :
    ∃ innerLogs,
      (loggingMiddleware (createMainHandler env net userKey) ctx startNs endNs
          r w).logs =
        LogEvent.requestStarted r.method r.path r.remoteAddr r.userAgent ::
          innerLogs ++
          [LogEvent.requestCompleted r.method r.path
            (Int.tdiv (endNs - startNs) 1000000)] ∧
      0 ≤ Int.tdiv (endNs - startNs) 1000000 := by
  refine ⟨(createMainHandler env net userKey r
    (w.setHeader "X-Request-ID" (getRequestID ctx))).logs, ?_, ?_⟩
  · unfold loggingMiddleware
    simp [createMainHandler_not_crashed env net userKey hnet]
  · exact Int.tdiv_nonneg (by omega) (by omega)

/-- Witness for C8 at a concrete POST request, a contract-honouring
client and clock samples 2ms apart. -/
theorem c8_witness :
    ∃ innerLogs,
      (loggingMiddleware (createMainHandler envSample netOk "ukey") ctxNone
          5 2000005 samplePost ResponseWriter.init).logs =
        LogEvent.requestStarted "POST" "/" "203.0.113.1" "curl" ::
          innerLogs ++ [LogEvent.requestCompleted "POST" "/"
            (Int.tdiv (2000005 - 5) 1000000)] ∧
      0 ≤ Int.tdiv (2000005 - 5 : Int) 1000000 :=
  c8_started_and_completed envSample netOk "ukey" ctxNone 5 2000005 samplePost
    ResponseWriter.init
    (fun m rcpt h => by simp [netOk]) (by omega)

/-- C7: when either required configuration value is empty or absent,
startup terminates with the fatal diagnostic and reaches no further state
(in particular no listener and no handler registration exist); when both
are present and non-empty, startup registers the middleware-wrapped main
handler on the catch-all route and starts exactly one listener — the
Lambda gateway when the platform marker is set, else an HTTP server on
the configured port, defaulting to 8080. -/
theorem c7_startup_validation (env : EnvMap) (net : ClientBehavior) :
    (getEnvStr env "PUSHOVER_TOKEN" = "" ∨ getEnvStr env "PUSHOVER_USER_KEY" = "" →
      mainStartup env net = Except.error fatalConfigMsg) ∧
    (getEnvStr env "PUSHOVER_TOKEN" ≠ "" → getEnvStr env "PUSHOVER_USER_KEY" ≠ "" →
      mainStartup env net = Except.ok
        { handler := loggingMiddleware
            (createMainHandler env net (getEnvStr env "PUSHOVER_USER_KEY")),
          listener :=
            if (env "AWS_LAMBDA_FUNCTION_NAME").isSome then
              ListenerKind.lambdaGateway
            else
              ListenerKind.httpServer
                (if getEnvStr env "PORT" = "" then "8080"
                 else getEnvStr env "PORT") }) := by
  constructor
  · intro h
    unfold mainStartup
    simp [h]
  · intro h1 h2
    unfold mainStartup
    rw [if_neg (by simp [h1, h2])]
    by_cases hl : (env "AWS_LAMBDA_FUNCTION_NAME").isSome <;> simp [hl]

/-- Witness for C7: a complete configuration starts the default HTTP
listener, a missing recipient key is fatal. -/
theorem c7_witness :
    mainStartup envFull netOk = Except.ok
      { handler := loggingMiddleware
          (createMainHandler envFull netOk (getEnvStr envFull "PUSHOVER_USER_KEY")),
        listener := ListenerKind.httpServer "8080" } ∧
    mainStartup envMissing netOk = Except.error fatalConfigMsg :=
  ⟨(c7_startup_validation envFull netOk).2 (by decide) (by decide),
    (c7_startup_validation envMissing netOk).1 (Or.inr (by decide))⟩

/-- C10: the success path dereferences the client's returned response —
reading its `Status` and `ID` fields for the log line — with no nil
check, so the handler is free of nil dereference exactly under the
precondition that the client never pairs a nil response with a nil error:
under `ClientContract` no request crashes, while the contract-violating
`netNil` client crashes the handler on an ordinary POST. -/
theorem c10_nil_dereference (env : EnvMap) (userKey : String) :
    (∀ net, ClientContract net → ∀ r w,
      (createMainHandler env net userKey r w).crashed = false) ∧
    (createMainHandler env netNil userKey samplePost
        ResponseWriter.init).crashed = true ∧
    (∀ net r w body resp,
      r.method = "POST" → r.bodyRead = Except.ok body →
      net (newMessage body) (newRecipient userKey) = (some resp, none) →
      (createMainHandler env net userKey r w).logs =
        [LogEvent.receivedPayload body.length body,
         LogEvent.notificationSent resp.status resp.id]) := by
  refine ⟨fun net hnet r w => createMainHandler_not_crashed env net userKey hnet r w,
    rfl, ?_⟩
  intro net r w body resp hm hb hnet
  unfold createMainHandler
  simp [hm, hb, hnet]

/-- Witness for C10: the contract-honouring client never crashes the
handler, the nil/nil client does, and the success log reads the response
fields. -/
theorem c10_witness :
    (createMainHandler envSample netOk "ukey" samplePost
        ResponseWriter.init).crashed = false ∧
    (createMainHandler envSample netNil "ukey" samplePost
        ResponseWriter.init).crashed = true ∧
    (createMainHandler envSample netOk "ukey" samplePost
        ResponseWriter.init).logs =
      [LogEvent.receivedPayload 5 "hello", LogEvent.notificationSent 1 "rid-9"] :=
  ⟨(c10_nil_dereference envSample "ukey").1 netOk
      (fun m rcpt h => by simp [netOk]) samplePost ResponseWriter.init,
    (c10_nil_dereference envSample "ukey").2.1,
    (c10_nil_dereference envSample "ukey").2.2 netOk samplePost
      ResponseWriter.init "hello" { status := 1, id := "rid-9" }
      (by decide) rfl rfl⟩

end PushRelay
